import Mathlib

/-!
# Verification of the Tech Dither Pattern Generator engine

A shallow embedding of the layer-compositing and pattern-rendering engine:
the layer manager (`addLayer`, `removeLayer`, `updateActiveLayerConfig`),
the shape-influence resolver (`getShapeBrightnessForLayer`), the five
pattern renderers, the composite pass (`renderFrame`) with its shared
drop-state mutation, and the frame stepper (`stepFrame`).

Numbers are modelled as exact rationals.  The host math library's `sin`,
`cos` and `sqrt` are modelled as an explicit function bundle (`TrigOps`)
passed to the renderers that call them; theorems quantify over the bundle,
and concrete instantiations use functions that agree with the true
trigonometric functions at the evaluation points used.
-/

namespace TechDither

/-- Math library operations used by the renderers (Math.sin, Math.cos,
Math.sqrt), modelled as an explicit parameter bundle. -/
structure TrigOps where
  sin : ℚ → ℚ
  cos : ℚ → ℚ
  sqrt : ℚ → ℚ

/-- One rain-column state (types.ts `Drop`): column index `x`, fractional
vertical position `y`, fall speed, trail length. -/
structure Drop where
  x : ℤ
  y : ℚ
  speed : ℚ
  length : ℚ
  deriving Repr, DecidableEq

/-- A precomputed triplet of uniform random values (types.ts `RandomSeed`). -/
structure RandomSeed where
  r1 : ℚ
  r2 : ℚ
  r3 : ℚ
  deriving Repr, DecidableEq

/-- Per-layer visual configuration (types.ts `LayerConfig`). -/
structure LayerConfig where
  symbolSet : String
  density : ℚ
  cellSize : ℤ
  color : String
  bgColor : String
  animationSpeed : ℤ
  pattern : String
  gradient : Bool
  glowEffect : Bool
  shapeInfluence : ℚ
  gradientStrength : ℚ
  glowIntensity : ℚ
  glowRadius : ℚ
  deriving Repr, DecidableEq

/-- One composition layer (types.ts `Layer`).  `shapeImage` is an opaque
reference to the uploaded image (modelled by its source string);
`shapeData` is the derived brightness grid. -/
structure Layer where
  id : String
  name : String
  visible : Bool
  opacity : ℚ
  config : LayerConfig
  shapeImage : Option String
  shapeData : Option (List (List ℚ))
  deriving Repr, DecidableEq

/-- constants.ts `DEFAULT_LAYER_CONFIG`. -/
def DEFAULT_LAYER_CONFIG : LayerConfig where
  symbolSet := "01"
  density := 7/10
  cellSize := 12
  color := "#00ff9f"
  bgColor := "#0a0e27"
  animationSpeed := 50
  pattern := "rain"
  gradient := true
  glowEffect := true
  shapeInfluence := 4/5
  gradientStrength := 4/5
  glowIntensity := 10
  glowRadius := 10

/-! ## Shape influence resolver (colorUtils.ts) -/

/-- colorUtils.ts `getShapeBrightnessForLayer`: brightness (0-1) of the
layer's centered shape at grid cell `(x, y)`; `1` when no shape data is
present.  `Math.floor((cols - shapeWidth) / 2)` on integers is `Int.fdiv`.
List accesses use `getD`; on the in-bounds branch, with a rectangular
grid, the defaults are never reached (matching the JS index accesses). -/
def getShapeBrightnessForLayer (x y cols rows : ℤ) (layer : Layer) : ℚ :=
  match layer.shapeData with
  | none => 1
  | some shapeData =>
    let shapeWidth : ℤ := (shapeData.headD []).length
    let shapeHeight : ℤ := shapeData.length
    let offsetX : ℤ := Int.fdiv (cols - shapeWidth) 2
    let offsetY : ℤ := Int.fdiv (rows - shapeHeight) 2
    let shapeX := x - offsetX
    let shapeY := y - offsetY
    if shapeX < 0 ∨ shapeWidth ≤ shapeX ∨ shapeY < 0 ∨ shapeHeight ≤ shapeY then
      1 - layer.config.shapeInfluence
    else
      let brightness := (shapeData.getD shapeY.toNat []).getD shapeX.toNat 0
      brightness * layer.config.shapeInfluence + (1 - layer.config.shapeInfluence)

/-- Whether cell `(x, y)` falls outside the bounds of the brightness grid
`g` centered in a `cols × rows` cell grid (the condition of the
out-of-bounds branch of `getShapeBrightnessForLayer`). -/
def shapeOutside (x y cols rows : ℤ) (g : List (List ℚ)) : Bool :=
  let w : ℤ := (g.headD []).length
  let h : ℤ := g.length
  let sx := x - Int.fdiv (cols - w) 2
  let sy := y - Int.fdiv (rows - h) 2
  decide (sx < 0 ∨ w ≤ sx ∨ sy < 0 ∨ h ≤ sy)

/-- The brightness entry of grid `g` read by the in-bounds branch of
`getShapeBrightnessForLayer` at cell `(x, y)`. -/
def shapeBrightnessAt (x y cols rows : ℤ) (g : List (List ℚ)) : ℚ :=
  let w : ℤ := (g.headD []).length
  let h : ℤ := g.length
  let sx := x - Int.fdiv (cols - w) 2
  let sy := y - Int.fdiv (rows - h) 2
  (g.getD sy.toNat []).getD sx.toNat 0

/-- Well-formedness of an optional brightness grid: when present it is
non-empty, rectangular, with all entries in `[0, 1]` (the shape data the
Brightness Mapper produces). -/
def gridOk (sd : Option (List (List ℚ))) : Bool :=
  match sd with
  | none => true
  | some g =>
    !g.isEmpty &&
    g.all (fun row => row.length = (g.headD []).length) &&
    g.all (fun row => row.all (fun b => decide (0 ≤ b) && decide (b ≤ 1)))

/-- colorUtils.ts `calculateGlowBlur`:
`Math.floor(glowIntensity * brightness * (glowRadius / 10))`. -/
def calculateGlowBlur (glowIntensity brightness glowRadius : ℚ) : ℤ :=
  ⌊glowIntensity * brightness * (glowRadius / 10)⌋

/-! ## Layer manager (useLayerManager) -/

/-- State owned by the `useLayerManager` hook: the ordered layer list, the
active layer id, and the set of UI-expanded layer ids (modelled as a
list). -/
structure LayerState where
  layers : List Layer
  activeLayerId : String
  expandedLayerIds : List String
  deriving Repr, DecidableEq

/-- A junk layer used as the `getD`/`headD` default; the code paths that
would reach it index past the end of an array in JS and are unreachable
under the invariants proved below. -/
def dummyLayer : Layer where
  id := ""
  name := ""
  visible := true
  opacity := 1
  config := DEFAULT_LAYER_CONFIG
  shapeImage := none
  shapeData := none

/-- `useLayerManager.addLayer`: no-op at 3 layers, otherwise appends a
fresh default layer and makes it active and expanded.  The fresh id
(`layer-${Date.now()}` in the source) is supplied as a parameter. -/
def addLayer (st : LayerState) (newId : String) : LayerState :=
  if 3 ≤ st.layers.length then st
  else
    let newLayer : Layer :=
      { id := newId
        name := "Layer " ++ toString (st.layers.length + 1)
        visible := true
        opacity := 1
        config := DEFAULT_LAYER_CONFIG
        shapeImage := none
        shapeData := none }
    { layers := st.layers ++ [newLayer]
      activeLayerId := newId
      expandedLayerIds := st.expandedLayerIds ++ [newId] }

/-- `useLayerManager.removeLayer`: no-op at 1 layer, otherwise filters the
layer out, reassigns the active id to the first remaining layer when the
removed layer was active, and drops the id from the expanded set. -/
def removeLayer (st : LayerState) (layerId : String) : LayerState :=
  if st.layers.length = 1 then st
  else
    let newLayers := st.layers.filter (fun l => l.id != layerId)
    { layers := newLayers
      activeLayerId :=
        if st.activeLayerId = layerId then (newLayers.headD dummyLayer).id
        else st.activeLayerId
      expandedLayerIds := st.expandedLayerIds.filter (fun i => i != layerId) }

/-- A partial `LayerConfig` update (TypeScript `Partial<LayerConfig>`):
every field is optionally present. -/
structure LayerConfigUpdate where
  symbolSet : Option String := none
  density : Option ℚ := none
  cellSize : Option ℤ := none
  color : Option String := none
  bgColor : Option String := none
  animationSpeed : Option ℤ := none
  pattern : Option String := none
  gradient : Option Bool := none
  glowEffect : Option Bool := none
  shapeInfluence : Option ℚ := none
  gradientStrength : Option ℚ := none
  glowIntensity : Option ℚ := none
  glowRadius : Option ℚ := none
  deriving Repr, DecidableEq

/-- JS object spread `{ ...layer.config, ...configUpdate }`: fields named
in the update replace the old values, all others are kept. -/
def applyConfigUpdate (c : LayerConfig) (u : LayerConfigUpdate) : LayerConfig where
  symbolSet := u.symbolSet.getD c.symbolSet
  density := u.density.getD c.density
  cellSize := u.cellSize.getD c.cellSize
  color := u.color.getD c.color
  bgColor := u.bgColor.getD c.bgColor
  animationSpeed := u.animationSpeed.getD c.animationSpeed
  pattern := u.pattern.getD c.pattern
  gradient := u.gradient.getD c.gradient
  glowEffect := u.glowEffect.getD c.glowEffect
  shapeInfluence := u.shapeInfluence.getD c.shapeInfluence
  gradientStrength := u.gradientStrength.getD c.gradientStrength
  glowIntensity := u.glowIntensity.getD c.glowIntensity
  glowRadius := u.glowRadius.getD c.glowRadius

/-- `useLayerManager.updateActiveLayerConfig`: map over the layers,
merging the partial update into the config of the layer(s) whose id is
the active id. -/
def updateActiveLayerConfig (st : LayerState) (u : LayerConfigUpdate) : LayerState :=
  { st with
    layers := st.layers.map (fun layer =>
      if layer.id = st.activeLayerId then
        { layer with config := applyConfigUpdate layer.config u }
      else layer) }

/-- The layer at index `i` of a state (with the junk default). -/
def layerAt (st : LayerState) (i : ℕ) : Layer :=
  st.layers.getD i dummyLayer

/-! ## Pattern renderers (renderPatterns.ts)

Each renderer is modelled as a pure function from its inputs to the list
of `fillText` draw commands it issues, in issue order.  A draw command
records the symbol index chosen from the layer's alphabet, the pixel
position, the computed brightness (the alpha appended to the fill style),
and the glow blur in effect for that draw. -/

/-- One `ctx.fillText` call: chosen symbol index, pixel position, the
brightness used for the color alpha, and the glow blur applied. -/
structure DrawCmd where
  sym : ℤ
  px : ℚ
  py : ℚ
  brightness : ℚ
  blur : ℤ
  deriving Repr, DecidableEq

/-- `layerSymbols.length` for `layerSymbols = config.symbolSet.split('')`. -/
def symCount (layer : Layer) : ℕ :=
  layer.config.symbolSet.toList.length

/-- `Math.floor(cellSize / 2)`. -/
def halfCell (cellSize : ℤ) : ℤ :=
  Int.fdiv cellSize 2

/-- The shadow blur a renderer sets before a draw:
`calculateGlowBlur(...)` when the glow effect is on, else `0`. -/
def targetBlur (layer : Layer) (brightness : ℚ) : ℤ :=
  if layer.config.glowEffect then
    calculateGlowBlur layer.config.glowIntensity brightness layer.config.glowRadius
  else 0

/-- Body of the inner loop of `renderRainPattern` for drop `drop` at trail
offset `j`: the draw command issued, if any. -/
def rainCellCmd (layer : Layer) (cols rows : ℕ) (cellSize : ℤ)
    (seeds : List RandomSeed) (drop : Drop) (j : ℕ) : Option DrawCmd :=
  let y := drop.y - j
  if y < 0 ∨ (rows : ℚ) ≤ y then none
  else
    let yInt : ℤ := ⌊y⌋
    let shapeBrightness := getShapeBrightnessForLayer drop.x yInt cols rows layer
    let alpha := (1 - (j : ℚ) / drop.length) * shapeBrightness
    let brightness :=
      if layer.config.gradient then
        alpha * layer.config.gradientStrength + (1 - layer.config.gradientStrength)
      else shapeBrightness
    if brightness > 1/10 then
      let seedIndex := (drop.x + yInt).toNat % seeds.length
      let seed := seeds.getD seedIndex ⟨0, 0, 0⟩
      some { sym := ⌊seed.r1 * symCount layer⌋
             px := drop.x * cellSize + halfCell cellSize
             py := yInt * cellSize + halfCell cellSize
             brightness := brightness
             blur := targetBlur layer brightness }
    else none

/-- renderPatterns.ts `renderRainPattern`: for each drop, the trail cells
`j = 0 .. drop.length` (exclusive, fractional bound) above its head. -/
def renderRainPattern (layer : Layer) (cols rows : ℕ) (cellSize : ℤ)
    (seeds : List RandomSeed) (drops : List Drop) : List DrawCmd :=
  List.flatten (drops.map (fun drop =>
    (List.range (⌈drop.length⌉).toNat).filterMap
      (rainCellCmd layer cols rows cellSize seeds drop)))

/-- The wave term of `renderWavePattern`:
`((sin((i + frame*0.1)*0.3) * cos((j + frame*0.1)*0.3)) + 1) / 2`. -/
def waveAlpha (trig : TrigOps) (i j : ℕ) (frame : ℕ) : ℚ :=
  (trig.sin ((i + frame * (1/10)) * (3/10)) *
   trig.cos ((j + frame * (1/10)) * (3/10)) + 1) / 2

/-- Body of the cell loop of `renderWavePattern` at cell `(i, j)`. -/
def renderWaveCell (trig : TrigOps) (layer : Layer) (cols rows : ℕ)
    (cellSize : ℤ) (frame : ℕ) (seeds : List RandomSeed) (i j : ℕ) :
    Option DrawCmd :=
  let wAlpha := waveAlpha trig i j frame
  let shapeBrightness := getShapeBrightnessForLayer i j cols rows layer
  let alpha := wAlpha * shapeBrightness
  let seedIndex := (i * rows + j) % seeds.length
  let seed := seeds.getD seedIndex ⟨0, 0, 0⟩
  if seed.r1 < layer.config.density * alpha then
    let brightness :=
      if layer.config.gradient then
        alpha * layer.config.gradientStrength +
          (1 - layer.config.gradientStrength) * shapeBrightness
      else shapeBrightness
    some { sym := ⌊seed.r2 * symCount layer⌋
           px := i * cellSize + halfCell cellSize
           py := j * cellSize + halfCell cellSize
           brightness := brightness
           blur := targetBlur layer brightness }
  else none

/-- renderPatterns.ts `renderWavePattern`: column-major sweep of the grid. -/
def renderWavePattern (trig : TrigOps) (layer : Layer) (cols rows : ℕ)
    (cellSize : ℤ) (frame : ℕ) (seeds : List RandomSeed) : List DrawCmd :=
  List.flatten ((List.range cols).map (fun i =>
    (List.range rows).filterMap (renderWaveCell trig layer cols rows cellSize frame seeds i)))

/-- Body of the cell loop of `renderStaticPattern` at cell `(i, j)`. -/
def renderStaticCell (layer : Layer) (cols rows : ℕ) (cellSize : ℤ)
    (frame : ℕ) (seeds : List RandomSeed) (i j : ℕ) : Option DrawCmd :=
  let frameOffset := (frame * 17) % seeds.length
  let shapeBrightness := getShapeBrightnessForLayer i j cols rows layer
  let baseSeedIndex := (i * rows + j) % seeds.length
  let seedIndex := (baseSeedIndex + frameOffset) % seeds.length
  let seed := seeds.getD seedIndex ⟨0, 0, 0⟩
  if seed.r1 < layer.config.density * shapeBrightness then
    let brightness :=
      if layer.config.gradient then
        seed.r2 * shapeBrightness * layer.config.gradientStrength +
          (1 - layer.config.gradientStrength) * shapeBrightness
      else shapeBrightness
    some { sym := ⌊seed.r3 * symCount layer⌋
           px := i * cellSize + halfCell cellSize
           py := j * cellSize + halfCell cellSize
           brightness := brightness
           blur := targetBlur layer brightness }
  else none

/-- renderPatterns.ts `renderStaticPattern`. -/
def renderStaticPattern (layer : Layer) (cols rows : ℕ) (cellSize : ℤ)
    (frame : ℕ) (seeds : List RandomSeed) : List DrawCmd :=
  List.flatten ((List.range cols).map (fun i =>
    (List.range rows).filterMap (renderStaticCell layer cols rows cellSize frame seeds i)))

/-- `renderGlitchPattern`'s burst-window test:
`glitchCycle < 5 || (glitchCycle > 30 && glitchCycle < 35)` for
`glitchCycle = frame % 80`. -/
def glitchIsGlitching (frame : ℕ) : Bool :=
  frame % 80 < 5 || (30 < frame % 80 && frame % 80 < 35)

/-- `renderGlitchPattern`'s jitter magnitude:
`(sin(frame * 0.5) + 1) / 2` during a burst window, else `0`. -/
def glitchIntensity (trig : TrigOps) (frame : ℕ) : ℚ :=
  if glitchIsGlitching frame then (trig.sin (frame * (1/2)) + 1) / 2 else 0

/-- The positional jitter `(offsetX, offsetY)` that `renderGlitchPattern`
computes for the cell whose seed index is `seedIndex`. -/
def glitchOffset (trig : TrigOps) (frame : ℕ) (seeds : List RandomSeed)
    (seedIndex : ℕ) : ℚ × ℚ :=
  if glitchIsGlitching frame then
    let glitchSeedIndex := (seedIndex + frame) % seeds.length
    let gseed := seeds.getD glitchSeedIndex ⟨0, 0, 0⟩
    if gseed.r1 < 15/100 then
      ((gseed.r2 - 1/2) * 30 * glitchIntensity trig frame,
       (gseed.r3 - 1/2) * 10 * glitchIntensity trig frame)
    else (0, 0)
  else (0, 0)

/-- Body of the cell loop of `renderGlitchPattern` at cell `(i, j)`. -/
def renderGlitchCell (trig : TrigOps) (layer : Layer) (cols rows : ℕ)
    (cellSize : ℤ) (frame : ℕ) (seeds : List RandomSeed) (i j : ℕ) :
    Option DrawCmd :=
  let shapeBrightness := getShapeBrightnessForLayer i j cols rows layer
  let seedIndex := (i * rows + j) % seeds.length
  let off := glitchOffset trig frame seeds seedIndex
  let seed := seeds.getD seedIndex ⟨0, 0, 0⟩
  if seed.r2 < layer.config.density * shapeBrightness then
    let brightness :=
      if layer.config.gradient then
        (1/2 + seed.r3 * (1/2)) * shapeBrightness * layer.config.gradientStrength +
          (1 - layer.config.gradientStrength) * shapeBrightness
      else shapeBrightness
    some { sym := ⌊seed.r1 * symCount layer⌋
           px := i * cellSize + halfCell cellSize + off.1
           py := j * cellSize + halfCell cellSize + off.2
           brightness := brightness
           blur := targetBlur layer brightness }
  else none

/-- renderPatterns.ts `renderGlitchPattern`. -/
def renderGlitchPattern (trig : TrigOps) (layer : Layer) (cols rows : ℕ)
    (cellSize : ℤ) (frame : ℕ) (seeds : List RandomSeed) : List DrawCmd :=
  List.flatten ((List.range cols).map (fun i =>
    (List.range rows).filterMap (renderGlitchCell trig layer cols rows cellSize frame seeds i)))

/-- Body of the cell loop of `renderPulsePattern` at cell `(i, j)`. -/
def renderPulseCell (trig : TrigOps) (layer : Layer) (cols rows : ℕ)
    (cellSize : ℤ) (frame : ℕ) (seeds : List RandomSeed) (i j : ℕ) :
    Option DrawCmd :=
  let pulse := (trig.sin (frame * (1/20)) + 1) / 2
  let centerX : ℚ := cols / 2
  let centerY : ℚ := rows / 2
  let maxDist := trig.sqrt (centerX * centerX + centerY * centerY)
  let shapeBrightness := getShapeBrightnessForLayer i j cols rows layer
  let dx := i - centerX
  let dy := j - centerY
  let dist := trig.sqrt (dx * dx + dy * dy)
  let normalizedDist := dist / maxDist
  let seedIndex := (i * rows + j) % seeds.length
  let seed := seeds.getD seedIndex ⟨0, 0, 0⟩
  if seed.r1 < layer.config.density * (1 - normalizedDist) * pulse * shapeBrightness then
    let brightness :=
      if layer.config.gradient then
        (1 - normalizedDist) * pulse * shapeBrightness * layer.config.gradientStrength +
          (1 - layer.config.gradientStrength) * shapeBrightness
      else shapeBrightness
    some { sym := ⌊seed.r2 * symCount layer⌋
           px := i * cellSize + halfCell cellSize
           py := j * cellSize + halfCell cellSize
           brightness := brightness
           blur := targetBlur layer brightness }
  else none

/-- renderPatterns.ts `renderPulsePattern`. -/
def renderPulsePattern (trig : TrigOps) (layer : Layer) (cols rows : ℕ)
    (cellSize : ℤ) (frame : ℕ) (seeds : List RandomSeed) : List DrawCmd :=
  List.flatten ((List.range cols).map (fun i =>
    (List.range rows).filterMap (renderPulseCell trig layer cols rows cellSize frame seeds i)))

/-! ## Layer compositing (useCanvasRenderer.ts) -/

/-- useCanvasRenderer.ts `renderLayerToCanvas`: compute the grid from the
layer's own cell size and dispatch on the pattern tag. -/
def renderLayerToCanvas (trig : TrigOps) (width height : ℤ) (layer : Layer)
    (frame : ℕ) (drops : List Drop) (seeds : List RandomSeed) : List DrawCmd :=
  if width = 0 ∨ height = 0 then []
  else
    let cellSize := layer.config.cellSize
    let cols := (Int.fdiv width cellSize).toNat
    let rows := (Int.fdiv height cellSize).toNat
    match layer.config.pattern with
    | "rain" => renderRainPattern layer cols rows cellSize seeds drops
    | "wave" => renderWavePattern trig layer cols rows cellSize frame seeds
    | "static" => renderStaticPattern layer cols rows cellSize frame seeds
    | "glitch" => renderGlitchPattern trig layer cols rows cellSize frame seeds
    | "pulse" => renderPulsePattern trig layer cols rows cellSize frame seeds
    | _ => []

/-- The output of one composite pass: the background fill color and, for
each visible layer in order, its opacity and the draw commands of its
offscreen surface. -/
structure FrameOutput where
  bg : String
  layersOut : List (ℚ × List DrawCmd)
  deriving Repr, DecidableEq

/-- The drop mutation of `renderFrame`: `y += speed * 0.3`; on exiting
`rows + length`, reset `y` to `-length` and redraw the speed as
`0.5 + random() * 1.5` (the fresh uniform draw is the parameter `r`). -/
def updateDrop (rows : ℤ) (r : ℚ) (d : Drop) : Drop :=
  let y := d.y + d.speed * (3/10)
  if y > rows + d.length then
    { d with y := -d.length, speed := 1/2 + r * (3/2) }
  else
    { d with y := y }

/-- `drops.forEach(...)` of `renderFrame`, threading the index into the
random source `rand` (one fresh uniform value available per drop). -/
def updateDropsAux (rows : ℤ) (rand : ℕ → ℚ) (i : ℕ) : List Drop → List Drop
  | [] => []
  | d :: ds => updateDrop rows (rand i) d :: updateDropsAux rows rand (i + 1) ds

/-- The whole drop-state mutation of one composite pass:
`rows = Math.floor(height / cellSize)` with the hook-level `cellSize`. -/
def updateDropsPass (height cellSize : ℤ) (rand : ℕ → ℚ) (drops : List Drop) :
    List Drop :=
  updateDropsAux (Int.fdiv height cellSize) rand 0 drops

/-- The background fill of a composite pass:
`bottomLayer?.config.bgColor || '#0a0e27'` for `bottomLayer = layers[0]`
(note: taken from the full list, visible or not). -/
def bgColorOf (layers : List Layer) : String :=
  ((layers.head?).map (fun l => l.config.bgColor)).getD "#0a0e27"

/-- useCanvasRenderer.ts `renderFrame`: one composite pass.  Returns
`none` (nothing rendered) when the canvas has a zero dimension, otherwise
the background fill from `layers[0]` (fallback `'#0a0e27'`), each visible
layer's surface in list order, and the drop state after the single
end-of-pass mutation. -/
def renderFrame (trig : TrigOps) (width height cellSize : ℤ)
    (layers : List Layer) (drops : List Drop) (seeds : List RandomSeed)
    (frame : ℕ) (rand : ℕ → ℚ) : Option FrameOutput × List Drop :=
  if width = 0 ∨ height = 0 then (none, drops)
  else
    let bg := bgColorOf layers
    let visibleLayers := layers.filter (fun l => l.visible)
    let out : FrameOutput :=
      { bg := bg
        layersOut := visibleLayers.map (fun l =>
          (l.opacity, renderLayerToCanvas trig width height l frame drops seeds)) }
    (some out, updateDropsPass height cellSize rand drops)

/-! ## Frame scheduler stepping (useCanvasAnimation) -/

/-- The frame-counter state of the `useCanvasAnimation` hook. -/
structure AnimState where
  frameCounter : ℤ
  currentFrame : ℤ
  deriving Repr, DecidableEq

/-- `useCanvasAnimation.stepFrame`: add `direction` to the frame counter,
publish it, and invoke `onRenderFrame` once with the new value.  The
second component is the list of `onRenderFrame` invocations (by
argument), in order. -/
def stepFrame (st : AnimState) (direction : ℤ) : AnimState × List ℤ :=
  let fc := st.frameCounter + direction
  ({ frameCounter := fc, currentFrame := fc }, [fc])

/-! ## Concrete fixtures used by witnesses and counterexamples -/

/-- A concrete math bundle that agrees with the true `sin`, `cos`, `sqrt`
at the argument `0` — the only argument at which concrete statements
below evaluate it. -/
def trigAtZero : TrigOps where
  sin := fun _ => 0
  cos := fun _ => 1
  sqrt := fun _ => 0

/-- A two-layer manager state with distinct ids, second layer active. -/
def twoLayerState : LayerState where
  layers :=
    [{ dummyLayer with id := "layer-1" },
     { dummyLayer with id := "layer-2" }]
  activeLayerId := "layer-2"
  expandedLayerIds := ["layer-1", "layer-2"]

/-- A layer with a one-cell brightness grid of value `1/2` and full shape
influence, gradient on at full strength, full density, wave pattern. -/
def waveLayer : Layer :=
  { dummyLayer with
    shapeData := some [[1/2]]
    config :=
      { DEFAULT_LAYER_CONFIG with
        pattern := "wave"
        gradient := true
        gradientStrength := 1
        density := 1
        shapeInfluence := 1 } }

/-- An initially hidden layer whose background color is red. -/
def redLayer : Layer :=
  { dummyLayer with
    id := "layer-1"
    visible := false
    config := { DEFAULT_LAYER_CONFIG with bgColor := "#ff0000", pattern := "static" } }

/-- A visible layer whose background color is blue. -/
def blueLayer : Layer :=
  { dummyLayer with
    id := "layer-2"
    config := { DEFAULT_LAYER_CONFIG with bgColor := "#0000ff", pattern := "static" } }

/-! ## Automatic helper lemmas -/

/-- `updateDrop` keeps every drop at or above the wrap bound. -/
lemma updateDrop_y_le (rows : ℤ) (r : ℚ) (d : Drop) (hrows : 0 ≤ rows)
    (hlen : 0 ≤ d.length) :
    (updateDrop rows r d).y ≤ rows + (updateDrop rows r d).length := by
  have hrowsq : (0 : ℚ) ≤ (rows : ℚ) := by exact_mod_cast hrows
  simp only [updateDrop]
  split
  · simp only
    linarith
  · rename_i hno
    push_neg at hno
    simp only
    linarith

/-- Every member of the mutated drop list is `updateDrop` of a member of
the input list. -/
lemma mem_updateDropsAux {rows : ℤ} {rand : ℕ → ℚ} :
    ∀ {i : ℕ} {ds : List Drop} {d : Drop}, d ∈ updateDropsAux rows rand i ds →
      ∃ j d0, d0 ∈ ds ∧ d = updateDrop rows (rand j) d0 := by
  intro i ds
  induction ds generalizing i with
  | nil => intro d h; simp [updateDropsAux] at h
  | cons a t ih =>
    intro d h
    simp only [updateDropsAux, List.mem_cons] at h
    rcases h with h | h
    · exact ⟨i, a, by simp, h⟩
    · obtain ⟨j, d0, hm, he⟩ := ih h
      exact ⟨j, d0, by simp [hm], he⟩

/-! ## Claim theorems -/

/-- C8: for every cell coordinate and grid dimensions, when the layer's
`shapeData` is absent the shape influence resolver returns exactly `1`
(and, being a total function, never throws). -/
theorem resolver_neutral_without_shape (x y cols rows : ℤ) (layer : Layer)
    (h : layer.shapeData = none) :
    getShapeBrightnessForLayer x y cols rows layer = 1 := by
  unfold getShapeBrightnessForLayer
  rw [h]

theorem resolver_neutral_without_shape_witness :
    dummyLayer.shapeData = none ∧
      getShapeBrightnessForLayer 5 7 100 50 dummyLayer = 1 :=
  ⟨rfl, resolver_neutral_without_shape 5 7 100 50 dummyLayer rfl⟩

/-- C9: for direction `+1` or `-1` and any current counter, `stepFrame`
changes the frame counter by exactly `direction`, publishes it, and
invokes the render callback exactly once, with the new counter value. -/
theorem stepFrame_steps_once (st : AnimState) (direction : ℤ)
    (_h : direction = 1 ∨ direction = -1) :
    (stepFrame st direction).1.frameCounter = st.frameCounter + direction ∧
    (stepFrame st direction).1.currentFrame = st.frameCounter + direction ∧
    (stepFrame st direction).2 = [st.frameCounter + direction] :=
  ⟨rfl, rfl, rfl⟩

theorem stepFrame_steps_once_witness :
    ((1 : ℤ) = 1 ∨ (1 : ℤ) = -1) ∧
      ((stepFrame ⟨5, 5⟩ 1).1.frameCounter = 5 + 1 ∧
       (stepFrame ⟨5, 5⟩ 1).1.currentFrame = 5 + 1 ∧
       (stepFrame ⟨5, 5⟩ 1).2 = [5 + 1]) :=
  ⟨Or.inl rfl, stepFrame_steps_once ⟨5, 5⟩ 1 (Or.inl rfl)⟩

/-- C7: the glitch renderer applies zero positional jitter at every frame
whose cycle position `frame % 80` lies in `[5, 30]` or `[35, 80)`, and a
nonzero jitter can occur only in the burst windows `frame % 80 < 5` or
`30 < frame % 80 < 35`. -/
theorem glitch_no_jitter_outside_burst (trig : TrigOps) (frame : ℕ)
    (seeds : List RandomSeed) (seedIndex : ℕ) :
    ((5 ≤ frame % 80 ∧ frame % 80 ≤ 30) ∨ 35 ≤ frame % 80 →
      glitchOffset trig frame seeds seedIndex = (0, 0)) ∧
    (glitchOffset trig frame seeds seedIndex ≠ (0, 0) →
      frame % 80 < 5 ∨ (30 < frame % 80 ∧ frame % 80 < 35)) := by
  have key : glitchIsGlitching frame = false →
      glitchOffset trig frame seeds seedIndex = (0, 0) := by
    intro hb
    unfold glitchOffset
    rw [hb]
    simp
  constructor
  · intro h
    apply key
    unfold glitchIsGlitching
    simp only [Bool.or_eq_false_iff, Bool.and_eq_false_iff, decide_eq_false_iff_not,
      not_lt]
    omega
  · intro hne
    by_contra hnb
    push_neg at hnb
    apply hne
    apply key
    unfold glitchIsGlitching
    simp only [Bool.or_eq_false_iff, Bool.and_eq_false_iff, decide_eq_false_iff_not,
      not_lt]
    omega

theorem glitch_no_jitter_outside_burst_witness :
    ((5 ≤ 10 % 80 ∧ 10 % 80 ≤ 30) ∨ 35 ≤ 10 % 80) ∧
      glitchOffset trigAtZero 10 [⟨0, 0, 0⟩] 0 = (0, 0) :=
  ⟨Or.inl (by decide),
    (glitch_no_jitter_outside_burst trigAtZero 10 [⟨0, 0, 0⟩] 0).1
      (Or.inl (by decide))⟩

/-- C5: after a drop-state mutation pass every drop satisfies
`y ≤ rows + length` (given nonnegative row count and trail lengths); and
concretely, a drop with `length = 20` at `y = 69.5` on a 50-row grid that
advances past `70` wraps to `y = -20` with a fresh speed
`0.5 + r * 1.5`. -/
theorem drop_wrap_invariant (height cellSize : ℤ) (rand : ℕ → ℚ)
    (drops : List Drop) (hrows : 0 ≤ Int.fdiv height cellSize)
    (hlen : ∀ d ∈ drops, 0 ≤ d.length) :
    (∀ d ∈ updateDropsPass height cellSize rand drops,
      d.y ≤ Int.fdiv height cellSize + d.length) ∧
    (∀ (x : ℤ) (speed r : ℚ), 70 < 139/2 + speed * (3/10) →
      updateDrop 50 r ⟨x, 139/2, speed, 20⟩ =
        { x := x, y := -20, speed := 1/2 + r * (3/2), length := 20 }) := by
  constructor
  · intro d hd
    obtain ⟨j, d0, hm, he⟩ := mem_updateDropsAux hd
    subst he
    exact updateDrop_y_le _ _ _ hrows (hlen d0 hm)
  · intro x speed r hpass
    unfold updateDrop
    rw [if_pos]
    push_cast
    linarith

theorem drop_wrap_invariant_witness :
    ((updateDrop (Int.fdiv 600 12) (1/2) ⟨0, 139/2, 2, 20⟩).y ≤
      Int.fdiv 600 12 + (updateDrop (Int.fdiv 600 12) (1/2) ⟨0, 139/2, 2, 20⟩).length) ∧
    updateDrop 50 (1/2) ⟨0, 139/2, 2, 20⟩ =
      { x := 0, y := -20, speed := 1/2 + (1/2) * (3/2), length := 20 } :=
  ⟨(drop_wrap_invariant 600 12 (fun _ => 1/2) [⟨0, 139/2, 2, 20⟩]
      (by decide) (by decide)).1 (updateDrop (Int.fdiv 600 12) (1/2) ⟨0, 139/2, 2, 20⟩)
      (by simp [updateDropsPass, updateDropsAux]),
   (drop_wrap_invariant 600 12 (fun _ => 1/2) [⟨0, 139/2, 2, 20⟩]
      (by decide) (by decide)).2 0 2 (1/2) (by norm_num)⟩

/-- C4: in every composite pass (non-degenerate canvas), the resulting
drop state is exactly one application of the shared mutation pass, and it
does not depend on the layer list at all — in particular not on how many
layers use the rain pattern, and rendering a rain layer never mutates the
drops. -/
theorem drops_mutated_once_per_pass (trig : TrigOps) (width height cellSize : ℤ)
    (layers layers2 : List Layer) (drops : List Drop) (seeds : List RandomSeed)
    (frame : ℕ) (rand : ℕ → ℚ) (hw : width ≠ 0) (hh : height ≠ 0) :
    (renderFrame trig width height cellSize layers drops seeds frame rand).2 =
      updateDropsPass height cellSize rand drops ∧
    (renderFrame trig width height cellSize layers drops seeds frame rand).2 =
      (renderFrame trig width height cellSize layers2 drops seeds frame rand).2 := by
  unfold renderFrame
  rw [if_neg (by simp [hw, hh]), if_neg (by simp [hw, hh])]
  exact ⟨rfl, rfl⟩

theorem drops_mutated_once_per_pass_witness :
    (renderFrame trigAtZero 12 12 12 [redLayer, blueLayer, waveLayer]
        [⟨0, 1, 1, 10⟩] [⟨0, 0, 0⟩] 3 (fun _ => 0)).2 =
      updateDropsPass 12 12 (fun _ => 0) [⟨0, 1, 1, 10⟩] ∧
    (renderFrame trigAtZero 12 12 12 [redLayer, blueLayer, waveLayer]
        [⟨0, 1, 1, 10⟩] [⟨0, 0, 0⟩] 3 (fun _ => 0)).2 =
      (renderFrame trigAtZero 12 12 12 [] [⟨0, 1, 1, 10⟩] [⟨0, 0, 0⟩] 3
        (fun _ => 0)).2 :=
  drops_mutated_once_per_pass trigAtZero 12 12 12 [redLayer, blueLayer, waveLayer]
    [] [⟨0, 1, 1, 10⟩] [⟨0, 0, 0⟩] 3 (fun _ => 0) (by decide) (by decide)

/-- Filtering out one id from a list of layers with pairwise-distinct ids
removes at most one element. -/
lemma length_filter_id_ne_ge (l : List Layer) (i : String)
    (h : (l.map Layer.id).Nodup) :
    l.length - 1 ≤ (l.filter (fun x => x.id != i)).length := by
  induction l with
  | nil => simp
  | cons a t ih =>
    rw [List.map_cons, List.nodup_cons] at h
    obtain ⟨hnotin, hnd⟩ := h
    by_cases hai : a.id = i
    · have hfilter : t.filter (fun x => x.id != i) = t := by
        apply List.filter_eq_self.mpr
        intro x hx
        have hxid : x.id ≠ i := by
          intro hxi
          apply hnotin
          rw [hai, ← hxi]
          exact List.mem_map_of_mem _ hx
        simpa [bne_iff_ne]
      simp only [List.filter_cons, hai, bne_self_eq_false, if_neg]
      · rw [hfilter]; simp
    · have := ih hnd
      simp only [List.filter_cons]
      rw [if_pos (by simpa [bne_iff_ne])]
      simp only [List.length_cons]
      omega

/-- C1: starting from a valid state (between 1 and 3 layers, distinct
ids), both `addLayer` and `removeLayer` keep the layer count in `[1, 3]`:
`addLayer` is a no-op at 3 layers, `removeLayer` is a no-op at 1 layer,
and removing the active layer reassigns the active id to the first
remaining layer. -/
theorem layer_count_invariant (st : LayerState) (newId layerId : String)
    (h1 : 1 ≤ st.layers.length) (h3 : st.layers.length ≤ 3)
    (hnd : (st.layers.map Layer.id).Nodup) :
    (1 ≤ (addLayer st newId).layers.length ∧
      (addLayer st newId).layers.length ≤ 3) ∧
    (1 ≤ (removeLayer st layerId).layers.length ∧
      (removeLayer st layerId).layers.length ≤ 3) ∧
    (st.layers.length = 3 → addLayer st newId = st) ∧
    (st.layers.length = 1 → removeLayer st layerId = st) ∧
    (st.activeLayerId = layerId → st.layers.length ≠ 1 →
      (removeLayer st layerId).activeLayerId =
        ((st.layers.filter (fun l => l.id != layerId)).headD dummyLayer).id) := by
  refine ⟨?_, ?_, ?_, ?_, ?_⟩
  · unfold addLayer
    split
    · exact ⟨h1, h3⟩
    · rename_i hlt
      simp only [List.length_append, List.length_cons, List.length_nil]
      omega
  · unfold removeLayer
    split
    · exact ⟨h1, h3⟩
    · rename_i hne
      simp only
      have hub := List.length_filter_le (fun x => x.id != layerId) st.layers
      have hlb := length_filter_id_ne_ge st.layers layerId hnd
      omega
  · intro heq
    unfold addLayer
    rw [if_pos (by omega)]
  · intro heq
    unfold removeLayer
    rw [if_pos heq]
  · intro hact hne
    unfold removeLayer
    rw [if_neg hne]
    simp only [if_pos hact]

theorem layer_count_invariant_witness :
    (1 ≤ twoLayerState.layers.length ∧ twoLayerState.layers.length ≤ 3) ∧
      ((removeLayer twoLayerState "layer-2").activeLayerId =
        ((twoLayerState.layers.filter (fun l => l.id != "layer-2")).headD
          dummyLayer).id) :=
  ⟨⟨by decide, by decide⟩,
    (layer_count_invariant twoLayerState "layer-3" "layer-2" (by decide)
      (by decide) (by decide)).2.2.2.2 rfl (by decide)⟩

/-- C3: with shape data present and well-formed (entries in `[0, 1]`) and
shape influence `k ∈ [0, 1]`, the resolver's result always lies in
`[1 - k, 1]`; it is `1` with no shape data, `1 - k` outside the centered
shape bounds, and `brightness * k + (1 - k)` inside. -/
theorem shapeInfluence_range (x y cols rows : ℤ) (layer : Layer)
    (h0 : 0 ≤ layer.config.shapeInfluence)
    (_h1 : layer.config.shapeInfluence ≤ 1)
    (hgrid : gridOk layer.shapeData = true) :
    (1 - layer.config.shapeInfluence ≤
        getShapeBrightnessForLayer x y cols rows layer ∧
      getShapeBrightnessForLayer x y cols rows layer ≤ 1) ∧
    (layer.shapeData = none →
      getShapeBrightnessForLayer x y cols rows layer = 1) ∧
    (∀ g, layer.shapeData = some g →
      (shapeOutside x y cols rows g = true →
        getShapeBrightnessForLayer x y cols rows layer =
          1 - layer.config.shapeInfluence) ∧
      (shapeOutside x y cols rows g = false →
        getShapeBrightnessForLayer x y cols rows layer =
          shapeBrightnessAt x y cols rows g * layer.config.shapeInfluence +
            (1 - layer.config.shapeInfluence))) := by
  rcases hsd : layer.shapeData with _ | g
  · refine ⟨?_, fun _ => ?_, fun g hg => by simp [hsd] at hg⟩
    · simp only [getShapeBrightnessForLayer, hsd]
      constructor <;> linarith
    · simp only [getShapeBrightnessForLayer, hsd]
  · rw [hsd] at hgrid
    simp only [gridOk, Bool.and_eq_true, Bool.not_eq_true',
      List.all_eq_true, decide_eq_true_eq] at hgrid
    obtain ⟨⟨hne, hrect⟩, hbounds⟩ := hgrid
    have hcase :
        getShapeBrightnessForLayer x y cols rows layer =
          if shapeOutside x y cols rows g = true then
            1 - layer.config.shapeInfluence
          else
            shapeBrightnessAt x y cols rows g * layer.config.shapeInfluence +
              (1 - layer.config.shapeInfluence) := by
      simp only [getShapeBrightnessForLayer, hsd, shapeOutside, shapeBrightnessAt,
        decide_eq_true_eq]
    refine ⟨?_, by simp [hsd], ?_⟩
    · rw [hcase]
      by_cases hout : shapeOutside x y cols rows g = true
      · rw [if_pos hout]
        constructor <;> linarith
      · rw [if_neg hout]
        simp only [shapeOutside, decide_eq_true_eq, eq_iff_iff, iff_true,
          not_or, not_lt, not_le] at hout
        obtain ⟨hsx0, hsxw, hsy0, hsyh⟩ := hout
        have hrowlt : (y - Int.fdiv (rows - (g.length : ℤ)) 2).toNat < g.length := by
          omega
        have hrowmem : g.getD (y - Int.fdiv (rows - (g.length : ℤ)) 2).toNat [] ∈ g := by
          rw [List.getD_eq_getElem _ _ hrowlt]
          exact List.getElem_mem hrowlt
        have hrowlen := hrect _ hrowmem
        have hcollt :
            (x - Int.fdiv (cols - ((g.headD []).length : ℤ)) 2).toNat <
              (g.getD (y - Int.fdiv (rows - (g.length : ℤ)) 2).toNat []).length := by
          omega
        have hbmem :
            (g.getD (y - Int.fdiv (rows - (g.length : ℤ)) 2).toNat []).getD
                (x - Int.fdiv (cols - ((g.headD []).length : ℤ)) 2).toNat 0 ∈
              g.getD (y - Int.fdiv (rows - (g.length : ℤ)) 2).toNat [] := by
          rw [List.getD_eq_getElem _ _ hcollt]
          exact List.getElem_mem hcollt
        obtain ⟨hb0, hb1⟩ := hbounds _ hrowmem _ hbmem
        simp only [shapeBrightnessAt]
        constructor
        · have := mul_nonneg hb0 h0
          linarith
        · have := mul_le_mul_of_nonneg_right hb1 h0
          linarith
    · intro g2 hg2
      injection hg2 with hgg
      subst hgg
      constructor
      · intro hout; rw [hcase, if_pos hout]
      · intro hout; rw [hcase, if_neg (by simp [hout])]

theorem shapeInfluence_range_witness :
    (1 - waveLayer.config.shapeInfluence ≤
        getShapeBrightnessForLayer 0 0 1 1 waveLayer ∧
      getShapeBrightnessForLayer 0 0 1 1 waveLayer ≤ 1) ∧
    getShapeBrightnessForLayer 0 0 1 1 waveLayer =
      shapeBrightnessAt 0 0 1 1 [[1/2]] * waveLayer.config.shapeInfluence +
        (1 - waveLayer.config.shapeInfluence) :=
  ⟨(shapeInfluence_range 0 0 1 1 waveLayer
      (by norm_num [waveLayer, dummyLayer, DEFAULT_LAYER_CONFIG])
      (by norm_num [waveLayer, dummyLayer, DEFAULT_LAYER_CONFIG])
      (by norm_num [gridOk, waveLayer, dummyLayer, DEFAULT_LAYER_CONFIG])).1,
   ((shapeInfluence_range 0 0 1 1 waveLayer
      (by norm_num [waveLayer, dummyLayer, DEFAULT_LAYER_CONFIG])
      (by norm_num [waveLayer, dummyLayer, DEFAULT_LAYER_CONFIG])
      (by norm_num [gridOk, waveLayer, dummyLayer, DEFAULT_LAYER_CONFIG])).2.2
      [[1/2]] rfl).2 (by decide)⟩

/-- A partial config update that names only the `density` field. -/
def onlyDensityUpdate : LayerConfigUpdate where
  density := some (1/2)

/-- C10: `updateActiveLayerConfig` changes only the config fields named in
the update, and only on layers carrying the active id: the list length
and the active id are unchanged, any layer whose id is not the active id
is unchanged, every layer's non-config fields (`id`, `name`, `visible`,
`opacity`, `shapeImage`, `shapeData`) are unchanged, and every config
field not named in the update is unchanged. -/
theorem updateActiveLayerConfig_targeted (st : LayerState)
    (u : LayerConfigUpdate) (i : ℕ) :
    (updateActiveLayerConfig st u).layers.length = st.layers.length ∧
    (updateActiveLayerConfig st u).activeLayerId = st.activeLayerId ∧
    ((layerAt st i).id ≠ st.activeLayerId →
      layerAt (updateActiveLayerConfig st u) i = layerAt st i) ∧
    (layerAt (updateActiveLayerConfig st u) i).id = (layerAt st i).id ∧
    (layerAt (updateActiveLayerConfig st u) i).name = (layerAt st i).name ∧
    (layerAt (updateActiveLayerConfig st u) i).visible = (layerAt st i).visible ∧
    (layerAt (updateActiveLayerConfig st u) i).opacity = (layerAt st i).opacity ∧
    (layerAt (updateActiveLayerConfig st u) i).shapeImage = (layerAt st i).shapeImage ∧
    (layerAt (updateActiveLayerConfig st u) i).shapeData = (layerAt st i).shapeData ∧
    (u.symbolSet = none →
      (layerAt (updateActiveLayerConfig st u) i).config.symbolSet =
        (layerAt st i).config.symbolSet) ∧
    (u.density = none →
      (layerAt (updateActiveLayerConfig st u) i).config.density =
        (layerAt st i).config.density) ∧
    (u.cellSize = none →
      (layerAt (updateActiveLayerConfig st u) i).config.cellSize =
        (layerAt st i).config.cellSize) ∧
    (u.color = none →
      (layerAt (updateActiveLayerConfig st u) i).config.color =
        (layerAt st i).config.color) ∧
    (u.bgColor = none →
      (layerAt (updateActiveLayerConfig st u) i).config.bgColor =
        (layerAt st i).config.bgColor) ∧
    (u.animationSpeed = none →
      (layerAt (updateActiveLayerConfig st u) i).config.animationSpeed =
        (layerAt st i).config.animationSpeed) ∧
    (u.pattern = none →
      (layerAt (updateActiveLayerConfig st u) i).config.pattern =
        (layerAt st i).config.pattern) ∧
    (u.gradient = none →
      (layerAt (updateActiveLayerConfig st u) i).config.gradient =
        (layerAt st i).config.gradient) ∧
    (u.glowEffect = none →
      (layerAt (updateActiveLayerConfig st u) i).config.glowEffect =
        (layerAt st i).config.glowEffect) ∧
    (u.shapeInfluence = none →
      (layerAt (updateActiveLayerConfig st u) i).config.shapeInfluence =
        (layerAt st i).config.shapeInfluence) ∧
    (u.gradientStrength = none →
      (layerAt (updateActiveLayerConfig st u) i).config.gradientStrength =
        (layerAt st i).config.gradientStrength) ∧
    (u.glowIntensity = none →
      (layerAt (updateActiveLayerConfig st u) i).config.glowIntensity =
        (layerAt st i).config.glowIntensity) ∧
    (u.glowRadius = none →
      (layerAt (updateActiveLayerConfig st u) i).config.glowRadius =
        (layerAt st i).config.glowRadius) := by
  have hlen : (updateActiveLayerConfig st u).layers.length = st.layers.length := by
    simp [updateActiveLayerConfig]
  have e1 : layerAt st i = (st.layers[i]?).getD dummyLayer := by
    unfold layerAt
    simp only [List.getD_eq_getElem?_getD]
  have e2 : layerAt (updateActiveLayerConfig st u) i =
      ((st.layers[i]?).map (fun layer =>
        if layer.id = st.activeLayerId then
          { layer with config := applyConfigUpdate layer.config u }
        else layer)).getD dummyLayer := by
    unfold layerAt updateActiveLayerConfig
    simp only [List.getD_eq_getElem?_getD, List.getElem?_map]
  rcases hg : st.layers[i]? with _ | a
  · rw [hg] at e1 e2
    simp only [Option.map_none', Option.getD_none] at e1 e2
    rw [e1, e2]
    exact ⟨hlen, rfl, fun _ => rfl, rfl, rfl, rfl, rfl, rfl, rfl,
      fun _ => rfl, fun _ => rfl, fun _ => rfl, fun _ => rfl, fun _ => rfl,
      fun _ => rfl, fun _ => rfl, fun _ => rfl, fun _ => rfl, fun _ => rfl,
      fun _ => rfl, fun _ => rfl, fun _ => rfl⟩
  · rw [hg] at e1 e2
    simp only [Option.map_some', Option.getD_some] at e1 e2
    by_cases ha : a.id = st.activeLayerId
    · rw [if_pos ha] at e2
      rw [e1, e2]
      refine ⟨hlen, rfl, fun hne => absurd ha hne, rfl, rfl, rfl, rfl, rfl, rfl,
        ?_, ?_, ?_, ?_, ?_, ?_, ?_, ?_, ?_, ?_, ?_, ?_, ?_⟩ <;>
        · intro hnone
          simp [applyConfigUpdate, hnone]
    · rw [if_neg ha] at e2
      rw [e1, e2]
      exact ⟨hlen, rfl, fun _ => rfl, rfl, rfl, rfl, rfl, rfl, rfl,
        fun _ => rfl, fun _ => rfl, fun _ => rfl, fun _ => rfl, fun _ => rfl,
        fun _ => rfl, fun _ => rfl, fun _ => rfl, fun _ => rfl, fun _ => rfl,
        fun _ => rfl, fun _ => rfl, fun _ => rfl⟩

theorem updateActiveLayerConfig_targeted_witness :
    (updateActiveLayerConfig twoLayerState onlyDensityUpdate).layers.length =
      twoLayerState.layers.length ∧
    (layerAt (updateActiveLayerConfig twoLayerState onlyDensityUpdate) 0).config.symbolSet =
      (layerAt twoLayerState 0).config.symbolSet :=
  ⟨(updateActiveLayerConfig_targeted twoLayerState onlyDensityUpdate 0).1,
   (updateActiveLayerConfig_targeted twoLayerState onlyDensityUpdate 0).2.2.2.2.2.2.2.2.2.1
     rfl⟩

/-- C6 counterexample: at cell `(0, 0)`, frame `0`, with a shape
brightness of `1/2` at full influence, full density and gradient strength
`1`, the wave renderer draws a cell whose brightness is `1/4`
(`waveAlpha * shapeInfluence * gradientStrength + ...`), not the claimed
`waveAlpha * gradientStrength + (1 - gradientStrength) * shapeInfluence`,
which evaluates to `1/2` here (the math bundle agrees with the true
`sin`/`cos` at the argument `0` used). -/
theorem wave_brightness_spec_cex :
    (renderWaveCell trigAtZero waveLayer 1 1 12 0 [⟨0, 0, 0⟩] 0 0).map
        DrawCmd.brightness ≠
      some (waveAlpha trigAtZero 0 0 0 * waveLayer.config.gradientStrength +
        (1 - waveLayer.config.gradientStrength) *
          getShapeBrightnessForLayer 0 0 1 1 waveLayer) := by
  have hL : (renderWaveCell trigAtZero waveLayer 1 1 12 0 [⟨0, 0, 0⟩] 0 0).map
      DrawCmd.brightness = some (1/4) := by
    norm_num [renderWaveCell, waveAlpha, trigAtZero, getShapeBrightnessForLayer,
      waveLayer, dummyLayer, DEFAULT_LAYER_CONFIG, Int.zero_fdiv]
  have hR : waveAlpha trigAtZero 0 0 0 * waveLayer.config.gradientStrength +
      (1 - waveLayer.config.gradientStrength) *
        getShapeBrightnessForLayer 0 0 1 1 waveLayer = 1/2 := by
    norm_num [waveAlpha, trigAtZero, getShapeBrightnessForLayer, waveLayer,
      dummyLayer, DEFAULT_LAYER_CONFIG, Int.zero_fdiv]
  rw [hL, hR]
  intro h
  have h2 := Option.some.inj h
  norm_num at h2

/-- C6 (amended): with gradient enabled, a cell the wave renderer draws
has brightness
`waveAlpha * shapeInfluence * gradientStrength + (1 - gradientStrength) * shapeInfluence`
(the first term also carries the shape influence factor), and the cell is
drawn iff `seed.r1 < density * waveAlpha * shapeInfluence`. -/
theorem wave_cell_render (trig : TrigOps) (layer : Layer) (cols rows : ℕ)
    (cellSize : ℤ) (frame : ℕ) (seeds : List RandomSeed) (i j : ℕ)
    (hg : layer.config.gradient = true) :
    (∀ cmd, renderWaveCell trig layer cols rows cellSize frame seeds i j = some cmd →
      cmd.brightness =
        waveAlpha trig i j frame * getShapeBrightnessForLayer i j cols rows layer *
            layer.config.gradientStrength +
          (1 - layer.config.gradientStrength) *
            getShapeBrightnessForLayer i j cols rows layer) ∧
    ((renderWaveCell trig layer cols rows cellSize frame seeds i j).isSome = true ↔
      (seeds.getD ((i * rows + j) % seeds.length) ⟨0, 0, 0⟩).r1 <
        layer.config.density * waveAlpha trig i j frame *
          getShapeBrightnessForLayer i j cols rows layer) := by
  simp only [renderWaveCell, hg, if_true]
  split
  · rename_i hlt
    refine ⟨fun cmd hc => ?_, ?_⟩
    · injection hc with hcmd
      rw [← hcmd]
    · simp only [Option.isSome_some, true_iff]
      rw [mul_assoc]
      exact hlt
  · rename_i hnlt
    refine ⟨fun cmd hc => by simp at hc, ?_⟩
    simp only [Option.isSome_none, Bool.false_eq_true, false_iff]
    rw [mul_assoc]
    exact hnlt

theorem wave_cell_render_witness :
    waveLayer.config.gradient = true ∧
      (renderWaveCell trigAtZero waveLayer 1 1 12 0 [⟨0, 0, 0⟩] 0 0).isSome = true :=
  ⟨rfl,
   (wave_cell_render trigAtZero waveLayer 1 1 12 0 [⟨0, 0, 0⟩] 0 0 rfl).2.mpr
     (by
       norm_num [waveAlpha, trigAtZero, getShapeBrightnessForLayer, waveLayer,
         dummyLayer, DEFAULT_LAYER_CONFIG, Int.zero_fdiv])⟩

/-- C2 counterexample: the background fill of a composite pass comes from
`layers[0]` whether or not that layer is visible, so a list whose first
layer is hidden (red background) renders a different output from the list
with that layer removed (blue background), with identical drop state,
seeds and frame. -/
theorem hidden_vs_removed_cex :
    (renderFrame trigAtZero 12 12 12 [redLayer, blueLayer] [] [⟨1, 1, 1⟩] 0
        (fun _ => 0)).1 ≠
      (renderFrame trigAtZero 12 12 12 [blueLayer] [] [⟨1, 1, 1⟩] 0
        (fun _ => 0)).1 := by
  decide

/-- C2 (amended): hiding a layer produces output identical to removing it
whenever the resulting background fill color is unchanged — which holds
automatically for every layer that is not the bottom (index-0) layer, and
fails for the bottom layer exactly when its `bgColor` differs from the
new bottom layer's. -/
theorem hidden_layer_removal_equiv (trig : TrigOps) (width height cellSize : ℤ)
    (pre post : List Layer) (l : Layer) (drops : List Drop)
    (seeds : List RandomSeed) (frame : ℕ) (rand : ℕ → ℚ)
    (hbg : bgColorOf (pre ++ { l with visible := false } :: post) =
      bgColorOf (pre ++ post)) :
    (renderFrame trig width height cellSize
        (pre ++ { l with visible := false } :: post) drops seeds frame rand).1 =
      (renderFrame trig width height cellSize (pre ++ post) drops seeds frame
        rand).1 := by
  unfold renderFrame
  by_cases hz : width = 0 ∨ height = 0
  · rw [if_pos hz, if_pos hz]
  · rw [if_neg hz, if_neg hz]
    have hfilter : (pre ++ { l with visible := false } :: post).filter
        (fun l => l.visible) = (pre ++ post).filter (fun l => l.visible) := by
      simp [List.filter_append, List.filter_cons]
    simp only [hfilter, hbg]

theorem hidden_layer_removal_equiv_witness :
    bgColorOf ([blueLayer] ++ { redLayer with visible := false } :: []) =
      bgColorOf ([blueLayer] ++ []) ∧
    (renderFrame trigAtZero 12 12 12
        ([blueLayer] ++ { redLayer with visible := false } :: []) [] [⟨1, 1, 1⟩] 0
        (fun _ => 0)).1 =
      (renderFrame trigAtZero 12 12 12 ([blueLayer] ++ []) [] [⟨1, 1, 1⟩] 0
        (fun _ => 0)).1 :=
  ⟨by decide,
   hidden_layer_removal_equiv trigAtZero 12 12 12 [blueLayer] [] redLayer []
     [⟨1, 1, 1⟩] 0 (fun _ => 0) (by decide)⟩

end TechDither
